import Mathlib

/-!
Verification of the testing-unit-tracker frontend's client-side decision
logic: the per-cell status classifier (matrix view and the duplicate copy
kept in the upload page's appendix), the tester queue view's visual status,
display-date selection, timestamp formatting, unit progress computation,
the sub-checklist quick-action rules, the error boundary, and the
scheduler's local edit buffer.

All definitions are shallow embeddings of the TypeScript source.  Dates and
date-times travel as ISO strings and are compared lexicographically, exactly
as the JavaScript string comparisons do.  An `Option String` models a
`string | null | undefined` field; JavaScript truthiness of a string value
(`if (s)`) is modelled by the explicit emptiness checks that appear in the
definitions.  String primitives (uppercasing, truncation, lexicographic
comparison) are defined over the character list so that every definition
evaluates by kernel reduction.
-/

/-- ASCII uppercase of one character, the effect of JavaScript
`toUpperCase` on the ASCII status strings this client handles. -/
def upperChar (c : Char) : Char :=
  if 'a' ≤ c ∧ c ≤ 'z' then Char.ofNat (c.toNat - 32) else c

/-- JavaScript `s.toUpperCase()` on an ASCII string. -/
def strToUpper (s : String) : String := ⟨s.data.map upperChar⟩

/-- JavaScript `s.slice(0, n)` on a string (`n` first characters). -/
def strTake (s : String) (n : Nat) : String := ⟨s.data.take n⟩

/-- Character comparison by code point, as JavaScript compares the UTF-16
code units of the ASCII date strings involved here. -/
def charLt (a b : Char) : Bool := a.toNat < b.toNat

/-- Lexicographic comparison of character lists. -/
def charListLt : List Char → List Char → Bool
  | _, [] => false
  | [], _ :: _ => true
  | a :: as, b :: bs =>
    if charLt a b then true
    else if charLt b a then false
    else charListLt as bs

/-- JavaScript `a < b` on strings: lexicographic comparison. -/
def strLt (a b : String) : Bool := charListLt a.data b.data

/-- JavaScript `x ?? y` (nullish coalescing) on two optional strings: `y`
is used only when `x` is null or undefined; an empty string is kept. -/
def nullishCoalesce (x y : Option String) : Option String :=
  match x with
  | some s => some s
  | none => y

/- ===================== data model (api.ts) ===================== -/

/-- The six visual states a matrix cell can take (`CellStatusKind` in
`MatrixViewPage.tsx`). -/
inductive CellStatusKind
  | PENDING
  | RUNNING
  | PASS
  | FAIL
  | OVERDUE
  | SKIPPED
deriving Repr, DecidableEq

/-- Optional structured checklist of named booleans used only for the
designated sub-checklist step (`SubChecks` in `TesterQueuePage.tsx`). -/
structure SubChecks where
  ambient : Bool
  low : Bool
  high : Bool
deriving Repr, DecidableEq

/-- An assignment record as the client consumes it (`Assignment` in
`api.ts`, plus the `skipped`, `remark` and `sub_checks` wire fields the
pages read through `as any`).  `status` is a free-form string from the
server. -/
structure Assignment where
  id : String := ""
  unit_id : String := ""
  step_id : Nat := 0
  tester_id : Option String := none
  start_at : Option String := none
  end_at : Option String := none
  status : String := ""
  skipped : Bool := false
  remark : Option String := none
  sub_checks : Option SubChecks := none
deriving Repr, DecidableEq

/-- A result record (`Result` in `api.ts`).  `finished_at` is optional here
because the classifier code reads it defensively through optional
chaining. -/
structure Result where
  id : String := ""
  unit_id : String := ""
  step_id : Nat := 0
  passed : Bool := false
  finished_at : Option String := none
deriving Repr, DecidableEq

/- ===================== status classifiers ===================== -/

/-- Helper `toISODate` from `MatrixViewPage.tsx`: a falsy value (null,
undefined, empty string) gives null, a string is cut to its first ten
characters ("YYYY-MM-DD").  The `Date`-object branches of the source are
outside the embedded domain of on-the-wire strings. -/
def toISODate : Option String → Option String
  | none => none
  | some s => if s = "" then none else some (strTake s 10)

/-- Helper `toDateKey` from `TesterQueuePage.tsx`: same truncation of an
ISO string to its date part, null for a falsy input. -/
def toDateKey : Option String → Option String
  | none => none
  | some s => if s = "" then none else some (strTake s 10)

/-- The classifier output for one matrix cell: kind, rendered label, and
the optional `passed` flag. -/
structure CellStatus where
  statusKind : CellStatusKind
  statusLabel : String
  passed : Option Bool
deriving Repr, DecidableEq

/-- The per-cell status classifier of `MatrixViewPage.tsx` (the `rows`
`useMemo`, lines 401-484): no assignment gives PENDING; skipped gives
SKIPPED labelled "N/A"; uppercased status PASS or FAIL gives that terminal
state with the `passed` flag; status RUNNING gives RUNNING; otherwise the
kind is derived from the scheduled start date against today, and the
legacy-result fallback then replaces the derived kind with the result's
`passed` whenever a result record exists — the fallback's guard re-tests
the raw status, not the kind just derived. -/
def matrixClassify (aOpt : Option Assignment) (rOpt : Option Result)
    (todayKey : String) : CellStatus :=
  match aOpt with
  | none => ⟨.PENDING, "PENDING", none⟩
  | some a =>
    if a.skipped then ⟨.SKIPPED, "N/A", none⟩
    else
      let raw := strToUpper a.status
      if raw = "PASS" then ⟨.PASS, raw, some true⟩
      else if raw = "FAIL" then ⟨.FAIL, raw, some false⟩
      else if raw = "RUNNING" then ⟨.RUNNING, "RUNNING", none⟩
      else
        let startStr : Option String := a.start_at.map (fun s => strTake s 10)
        let derived : CellStatus :=
          match startStr with
          | some s =>
            if s = "" then ⟨.PENDING, "PENDING", none⟩
            else if strLt s todayKey then ⟨.OVERDUE, "OVERDUE", none⟩
            else if s = todayKey then ⟨.RUNNING, "RUNNING", none⟩
            else ⟨.PENDING, "PENDING", none⟩
          | none => ⟨.PENDING, "PENDING", none⟩
        match rOpt with
        | some r =>
          if r.passed then ⟨.PASS, "PASS", some true⟩
          else ⟨.FAIL, "FAIL", some false⟩
        | none => derived

/-- The duplicate classifier copy appended in `UploadResultPage.tsx`
(lines 661-718): same skipped and PASS/FAIL handling, but an existing
result record is consulted *before* the RUNNING check, so a result
overrides any status other than PASS/FAIL — including RUNNING. -/
def uploadMatrixClassify (aOpt : Option Assignment) (rOpt : Option Result)
    (todayKey : String) : CellStatus :=
  match aOpt with
  | none => ⟨.PENDING, "PENDING", none⟩
  | some a =>
    if a.skipped then ⟨.SKIPPED, "N/A", none⟩
    else
      let raw := strToUpper a.status
      if raw = "PASS" then ⟨.PASS, raw, some true⟩
      else if raw = "FAIL" then ⟨.FAIL, raw, some false⟩
      else
        match rOpt with
        | some r =>
          if r.passed then ⟨.PASS, "PASS", some true⟩
          else ⟨.FAIL, "FAIL", some false⟩
        | none =>
          if raw = "RUNNING" then ⟨.RUNNING, "RUNNING", none⟩
          else
            match a.start_at.map (fun s => strTake s 10) with
            | some s =>
              if s = "" then ⟨.PENDING, "PENDING", none⟩
              else if strLt s todayKey then ⟨.OVERDUE, "OVERDUE", none⟩
              else if s = todayKey then ⟨.RUNNING, "RUNNING", none⟩
              else ⟨.PENDING, "PENDING", none⟩
            | none => ⟨.PENDING, "PENDING", none⟩

/-- The tester queue view's `visualStatus` (`TesterQueuePage.tsx`,
lines 327-352): starting from the raw assignment status, a PENDING
assignment whose scheduled *end* date is strictly before today is shown as
OVERDUE; otherwise the raw status is shown unchanged (the source comments
that the today window still shows PENDING until the tester clicks
RUNNING). -/
def queueVisualStatus (a : Assignment) (todayKey : String) : String :=
  if a.status = "PENDING" then
    match toDateKey a.end_at with
    | some endKey => if strLt endKey todayKey then "OVERDUE" else a.status
    | none => a.status
  else a.status

/-- The tester queue's base list (`TesterQueuePage.tsx`, lines 196-199):
only non-skipped assignments whose status is PENDING or RUNNING take part
in building the unit cards. -/
def queueBase (assignments : List Assignment) : List Assignment :=
  assignments.filter fun a =>
    !a.skipped && (a.status = "PENDING" || a.status = "RUNNING")

/- ===================== display date selection ===================== -/

/-- The matrix view's per-cell display date (`MatrixViewPage.tsx`,
lines 405-425): the result's finished timestamp when present and truthy
(with no sentinel filtering), otherwise — for a non-skipped assignment —
the schedule's end date nullish-coalesced with its start date. -/
def matrixCellDate (aOpt : Option Assignment) (rOpt : Option Result) :
    Option String :=
  let skipped : Bool :=
    match aOpt with
    | some a => a.skipped
    | none => false
  let finishedAny : Option String := rOpt.bind (·.finished_at)
  let date1 : Option String :=
    match finishedAny with
    | some f => if f = "" then none else toISODate (some f)
    | none => none
  match date1 with
  | some d => some d
  | none =>
    match aOpt with
    | none => none
    | some a =>
      if skipped then none
      else toISODate (nullishCoalesce a.end_at a.start_at)

/-- Helper `isBlankSentinel` from the second `UnitDetailPage.tsx` copy: a
truthy string starting with "1970-01-01" is the backend's blank-date
sentinel. -/
def isBlankSentinel : Option String → Bool
  | none => false
  | some s => s.data.take 10 == "1970-01-01".data

/-- Digit test used by the date-shape check below. -/
def isDigitChar (c : Char) : Bool := 48 ≤ c.toNat && c.toNat ≤ 57

/-- Test for the regular expression `^\d{4}-\d{2}-\d{2}$` of the
unit-detail `toISODate` copy. -/
def isDateShape (s : String) : Bool :=
  match s.data with
  | [a, b, c, d, e, f, g, h, i, j] =>
    isDigitChar a && isDigitChar b && isDigitChar c && isDigitChar d &&
    (e == '-') && isDigitChar f && isDigitChar g &&
    (h == '-') && isDigitChar i && isDigitChar j
  | _ => false

/-- Helper `toISODate` of the second `UnitDetailPage.tsx` copy: falsy
input gives null, a string whose first ten characters match
"YYYY-MM-DD" gives those characters.  The `new Date(value)` re-parse of
other shapes is outside the embedded domain of on-the-wire ISO strings
(an unparsable value gives null there as here). -/
def toISODateDetail : Option String → Option String
  | none => none
  | some s =>
    if s = "" then none
    else
      let s10 := strTake s 10
      if isDateShape s10 then some s10 else none

/- ===================== timestamp formatting ===================== -/

/-- A UTC calendar date-time, the information `new Date(iso + "Z")`
carries for the naive ISO strings the backend sends. -/
structure CivilDateTime where
  year : Nat
  month : Nat
  day : Nat
  hour : Nat
  minute : Nat
deriving Repr, DecidableEq

/-- Gregorian leap-year rule. -/
def isLeapYear (y : Nat) : Bool := (y % 4 == 0 && y % 100 != 0) || y % 400 == 0

/-- Number of days of a month. -/
def daysInMonth (y m : Nat) : Nat :=
  if m = 2 then (if isLeapYear y then 29 else 28)
  else if m = 4 ∨ m = 6 ∨ m = 9 ∨ m = 11 then 30
  else 31

/-- The calendar day after a given one. -/
def nextDay (c : CivilDateTime) : CivilDateTime :=
  if c.day < daysInMonth c.year c.month then { c with day := c.day + 1 }
  else if c.month < 12 then { c with month := c.month + 1, day := 1 }
  else { c with year := c.year + 1, month := 1, day := 1 }

/-- Add `h` hours to a civil date-time, rolling days over; the effect of
`new Date(utc.getTime() + h * 60 * 60 * 1000)` on the UTC fields. -/
def addHours (c : CivilDateTime) (h : Nat) : CivilDateTime :=
  let total := c.hour + h
  Nat.repeat nextDay (total / 24) { c with hour := total % 24 }

/-- Two-digit zero-padded decimal rendering (`String(n).padStart(2, "0")`). -/
def pad2 (n : Nat) : String :=
  ⟨[Char.ofNat (48 + n / 10 % 10), Char.ofNat (48 + n % 10)]⟩

/-- Four-digit decimal rendering of the year. -/
def pad4 (n : Nat) : String :=
  ⟨[Char.ofNat (48 + n / 1000 % 10), Char.ofNat (48 + n / 100 % 10),
    Char.ofNat (48 + n / 10 % 10), Char.ofNat (48 + n % 10)]⟩

/-- The "YYYY-MM-DD HH:MM" template both `formatSingaporeDateTime` copies
produce from the (possibly shifted) date-time fields. -/
def formatCivil (c : CivilDateTime) : String :=
  pad4 c.year ++ "-" ++ pad2 c.month ++ "-" ++ pad2 c.day ++ " " ++
    pad2 c.hour ++ ":" ++ pad2 c.minute

/-- Field extraction of `new Date(iso + "Z")` from a naive ISO date-time
string "YYYY-MM-DDTHH:MM:SS" (missing time fields read as zero). -/
def digitVal (c : Char) : Nat := c.toNat - 48

/-- Numeric value of a digit run. -/
def natOfDigits (l : List Char) : Nat := l.foldl (fun n c => n * 10 + digitVal c) 0

/-- Parse the UTC fields out of a naive ISO date-time string. -/
def parseCivil (iso : String) : CivilDateTime :=
  let l := iso.data
  { year := natOfDigits (l.take 4)
    month := natOfDigits ((l.drop 5).take 2)
    day := natOfDigits ((l.drop 8).take 2)
    hour := natOfDigits ((l.drop 11).take 2)
    minute := natOfDigits ((l.drop 14).take 2) }

/-- First copy of `formatSingaporeDateTime` (`UnitDetailPage.tsx`,
lines 10-23): despite its comment about converting to SGT (+8), it adds
`0 * 60 * 60 * 1000` milliseconds, rendering the UTC instant unshifted.
No sentinel check is performed. -/
def formatSingaporeDateTimeV1 (iso : Option String) : String :=
  match iso with
  | none => "-"
  | some s => if s = "" then "-" else formatCivil (addHours (parseCivil s) 0)

/-- Second copy of `formatSingaporeDateTime` (`UnitDetailPage.tsx` second
file copy, lines 485-500): blank or sentinel input renders "-", otherwise
the stored UTC instant is shifted by exactly 8 hours before formatting. -/
def formatSingaporeDateTime (iso : Option String) : String :=
  match iso with
  | none => "-"
  | some s =>
    if s = "" then "-"
    else if isBlankSentinel (some s) then "-"
    else formatCivil (addHours (parseCivil s) 8)

/-- Schedule fallback inside `pickDisplayDate`: the end date
nullish-coalesced with the start date, cut to "YYYY-MM-DD", or "-". -/
def schedFallbackDisplay (aOpt : Option Assignment) : String :=
  match toISODateDetail (aOpt.bind fun a => nullishCoalesce a.end_at a.start_at) with
  | some s => s
  | none => "-"

/-- Function `pickDisplayDate` (`UnitDetailPage.tsx` second copy,
lines 502-528): the result's finished timestamp — when present, truthy and
not the 1970-01-01 sentinel — formatted in SGT; otherwise the schedule
fallback; otherwise "-". -/
def pickDisplayDate (aOpt : Option Assignment) (rOpt : Option Result) : String :=
  let finishedAny : Option String := rOpt.bind (·.finished_at)
  match finishedAny with
  | some f =>
    if f = "" then schedFallbackDisplay aOpt
    else if isBlankSentinel (some f) then schedFallbackDisplay aOpt
    else formatSingaporeDateTime (some f)
  | none => schedFallbackDisplay aOpt

/- ===================== unit progress ===================== -/

/-- The set of step ids of the unit's non-skipped assignments
(`UnitDetailPage.tsx`: `nonSkippedStepIds`), as a duplicate-free list. -/
def nonSkippedStepIds (assignments : List Assignment) : List Nat :=
  ((assignments.filter fun a => !a.skipped).map (·.step_id)).dedup

/-- Count of results with `passed = true` whose step id is in the
non-skipped set (`UnitDetailPage.tsx`: `passedSteps`). -/
def passedSteps (results : List Result) (assignments : List Assignment) : Nat :=
  (results.filter fun r =>
    r.passed && (nonSkippedStepIds assignments).contains r.step_id).length

/-- Denominator `totalSteps = nonSkippedStepIds.size || steps.length`:
falls back to the catalog step count when the non-skipped set is empty. -/
def totalSteps (assignments : List Assignment) (catalogCount : Nat) : Nat :=
  let n := (nonSkippedStepIds assignments).length
  if n = 0 then catalogCount else n

/-- The unit progress percentage
`totalSteps ? (passedSteps / totalSteps) * 100 : 0`. -/
def progress (assignments : List Assignment) (results : List Result)
    (catalogCount : Nat) : ℚ :=
  let t := totalSteps assignments catalogCount
  if t = 0 then 0
  else (passedSteps results assignments : ℚ) / (t : ℚ) * 100

/-- The displayed progress `progress.toFixed(0)`: rounding to the nearest
integer (JavaScript rounds halves away from zero, which agrees with
`round` on the non-negative values arising here). -/
def displayProgress (assignments : List Assignment) (results : List Result)
    (catalogCount : Nat) : ℤ :=
  round (progress assignments results catalogCount)

/- ===================== tester quick actions ===================== -/

/-- The designated sub-checklist step id (`TesterQueuePage.tsx`,
line 15). -/
def PRE_VIBRATION_STEP_ID : Nat := 5

/-- Predicate `allChecked` (`TesterQueuePage.tsx`, lines 23-25): all three
named checks are true on a present checklist. -/
def allChecked : Option SubChecks → Bool
  | some v => v.ambient && v.low && v.high
  | none => false

/-- The payload of a `createResult` call.  Field `metrics` is the optional
checklist state recorded as the result's metrics; `none` models the empty
`{}` metrics object of the quick PASS/FAIL path. -/
structure ResultPayload where
  unit_id : String
  step_id : Nat
  metrics : Option SubChecks
  passed : Bool
deriving Repr, DecidableEq

/-- Handler `handleQuickResult` (`TesterQueuePage.tsx`, lines 239-262), on
the path where the tester confirms the dialog: the result-creation payload
the mutation issues, or `none` when the handler returns without creating
anything — which it always does for the designated sub-checklist step. -/
def handleQuickResult (unit_id : String) (step_id : Nat) (passed : Bool) :
    Option ResultPayload :=
  if step_id = PRE_VIBRATION_STEP_ID then none
  else some { unit_id, step_id, metrics := none, passed }

/-- One of the three named checks of the sub-checklist. -/
inductive CheckKey
  | ambient
  | low
  | high
deriving Repr, DecidableEq

/-- The `next` checklist computed by the checkbox `onChange` handler:
the toggled key is flipped, the others are kept. -/
def flipCheck (k : CheckKey) (v : SubChecks) : SubChecks :=
  match k with
  | .ambient => { v with ambient := !v.ambient }
  | .low => { v with low := !v.low }
  | .high => { v with high := !v.high }

/-- What one checkbox toggle does (`TesterQueuePage.tsx`, lines 501-524):
the new checklist patched onto the assignment, and the at-most-one result
creation the handler triggers. -/
structure ToggleOutcome where
  patched : SubChecks
  emitted : Option ResultPayload
deriving Repr, DecidableEq

/-- The checkbox `onChange` handler of the sub-checklist step: always
patches the flipped checklist; exactly when all three checks of the new
state are true, it additionally creates one PASS result whose metrics are
that full checklist state. -/
def toggleSubCheck (unit_id : String) (step_id : Nat) (current : SubChecks)
    (k : CheckKey) : ToggleOutcome :=
  let next := flipCheck k current
  { patched := next
    emitted :=
      if allChecked (some next) then
        some { unit_id, step_id, metrics := some next, passed := true }
      else none }

/- ===================== error boundary ===================== -/

/-- The components appearing in the root render tree of `main.tsx`. -/
inductive ReactComponent
  | StrictMode
  | QueryClientProviderC
  | BrowserRouterC
  | PromptProviderC
  | ErrorBoundaryC
  | AppC
deriving Repr, DecidableEq

/-- The wrapper components `main.tsx` mounts around `App`, outermost
first: `StrictMode`, `QueryClientProvider`, `BrowserRouter`,
`PromptProvider`. -/
def mainRenderWrappers : List ReactComponent :=
  [.StrictMode, .QueryClientProviderC, .BrowserRouterC, .PromptProviderC]

/-- State of the `ErrorBoundary` class component
(`components/ErrorBoundary.tsx`). -/
structure ErrorBoundaryState where
  hasError : Bool
deriving Repr, DecidableEq

/-- Static `getDerivedStateFromError`: any caught rendering error sets
`hasError`. -/
def getDerivedStateFromError : ErrorBoundaryState := ⟨true⟩

/-- The boundary's `render`: the generic fallback text when an error was
caught, the children otherwise. -/
def errorBoundaryRender (s : ErrorBoundaryState) (children : String) : String :=
  if s.hasError then "Something went wrong." else children

/- ===================== scheduler edit buffer ===================== -/

/-- Helper `isoDateFromBackend` (`SchedulerPage.tsx`, lines 42-45): "" for
a falsy value, else the first ten characters. -/
def isoDateFromBackend : Option String → String
  | none => ""
  | some s => if s = "" then "" else strTake s 10

/-- One buffered scheduler row (`RowState` in `SchedulerPage.tsx`). -/
structure RowState where
  tester_id : String
  start_date : String
  end_date : String
  status : String
  dirty : Bool
deriving Repr, DecidableEq

/-- The editable fields of a scheduler row. -/
inductive RowField
  | tester_id
  | start_date
  | end_date
  | status
deriving Repr, DecidableEq

/-- Function `buildBaseRow` (`SchedulerPage.tsx`, lines 243-251): the clean
buffered copy of an assignment. -/
def buildBaseRow (a : Assignment) : RowState :=
  { tester_id := a.tester_id.getD ""
    status := a.status
    start_date := isoDateFromBackend a.start_at
    end_date := isoDateFromBackend a.end_at
    dirty := false }

/-- Function `handleFieldChange` (`SchedulerPage.tsx`, lines 258-280)
applied to the current buffered row: writes the field, clamps the end date
(raising the start date above a non-empty end date pulls the end date up
to it; setting the end date below a non-empty start date resets it to the
start date), and marks the row dirty. -/
def handleFieldChange (current : RowState) (field : RowField) (value : String) :
    RowState :=
  match field with
  | .tester_id => { current with tester_id := value, dirty := true }
  | .status => { current with status := value, dirty := true }
  | .start_date =>
    let next := { current with start_date := value }
    let next :=
      if next.end_date != "" && strLt next.end_date value then
        { next with end_date := value }
      else next
    { next with dirty := true }
  | .end_date =>
    let next := { current with end_date := value }
    let next :=
      if next.start_date != "" && strLt value next.start_date then
        { next with end_date := next.start_date }
      else next
    { next with dirty := true }

/-- The edit-buffer date invariant: a row with both dates non-empty never
has its end date lexicographically before its start date. -/
def rowInv (r : RowState) : Prop :=
  r.start_date ≠ "" → r.end_date ≠ "" → strLt r.end_date r.start_date = false

/- ===================== spec-side definitions ===================== -/

/-- Modelled from the claim's words for the progress denominator: the
number of the unit's assignments with `skipped = false`, falling back to
the full catalog step count when that set is empty. -/
def spec_totalCount (assignments : List Assignment) (catalogCount : Nat) : Nat :=
  let n := (assignments.filter fun a => !a.skipped).length
  if n = 0 then catalogCount else n

/-- Modelled from the claim's words for the progress numerator: the number
of results with `passed = true` whose step id belongs to a non-skipped
assignment. -/
def spec_passedCount (assignments : List Assignment) (results : List Result) : Nat :=
  (results.filter fun r =>
    r.passed &&
      ((assignments.filter fun a => !a.skipped).map (·.step_id)).contains r.step_id).length

/- ===================== order lemmas for strLt ===================== -/

theorem charListLt_irrefl : ∀ l : List Char, charListLt l l = false := by
  intro l
  induction l with
  | nil => rfl
  | cons a as ih => simp [charListLt, charLt, ih]

theorem charListLt_asymm : ∀ a b : List Char,
    charListLt a b = true → charListLt b a = false := by
  intro a
  induction a with
  | nil => intro b h; cases b <;> simp_all [charListLt]
  | cons x xs ih =>
    intro b h
    cases b with
    | nil => simp [charListLt] at h
    | cons y ys =>
      simp only [charListLt, charLt] at h ⊢
      by_cases h1 : x.toNat < y.toNat
      · have h2 : ¬ y.toNat < x.toNat := Nat.lt_asymm h1
        simp [h1, h2]
      · by_cases h2 : y.toNat < x.toNat
        · simp [h1, h2] at h
        · simp only [h1, h2] at h ⊢
          simp only [decide_eq_true_eq, if_neg, not_false_eq_true] at *
          simpa using ih ys (by simpa using h)

theorem strLt_irrefl (s : String) : strLt s s = false :=
  charListLt_irrefl s.data

theorem strLt_asymm {a b : String} (h : strLt a b = true) : strLt b a = false :=
  charListLt_asymm a.data b.data h

/- ===================== claim theorems ===================== -/

/-- C3: every assignment with `skipped = true` classifies as kind SKIPPED
with label "N/A" (in the matrix classifier and in its duplicate copy)
regardless of status, dates or any associated result; it is excluded from
the tester queue's base list; and — given the at-most-one-assignment-per-
step invariant, phrased here as "no non-skipped assignment shares its step
id" — its step id is excluded from the non-skipped set that both progress
counts are computed over. -/
theorem c3_skipped_is_na (a : Assignment) (rOpt : Option Result)
    (todayKey : String) (assignments : List Assignment)
    (hskip : a.skipped = true) :
    matrixClassify (some a) rOpt todayKey = ⟨.SKIPPED, "N/A", none⟩ ∧
    uploadMatrixClassify (some a) rOpt todayKey = ⟨.SKIPPED, "N/A", none⟩ ∧
    a ∉ queueBase assignments ∧
    ((∀ b ∈ assignments, b.step_id = a.step_id → b.skipped = true) →
      a.step_id ∉ nonSkippedStepIds assignments) := by
  refine ⟨by simp [matrixClassify, hskip], by simp [uploadMatrixClassify, hskip],
    by simp [queueBase, List.mem_filter, hskip], ?_⟩
  intro hall hmem
  rw [nonSkippedStepIds, List.mem_dedup, List.mem_map] at hmem
  obtain ⟨b, hb, hstep⟩ := hmem
  rw [List.mem_filter] at hb
  have hbs : b.skipped = true := hall b hb.1 hstep
  simp [hbs] at hb

/-- Witness for C3 at a concrete skipped assignment that has a passing
status, scheduled dates and a passing result. -/
theorem c3_witness :
    matrixClassify
        (some { step_id := 2, status := "PASS", skipped := true,
                start_at := some "2020-01-01", end_at := some "2020-01-02" })
        (some { step_id := 2, passed := true }) "2024-06-01" =
      ⟨.SKIPPED, "N/A", none⟩ ∧
    uploadMatrixClassify
        (some { step_id := 2, status := "PASS", skipped := true,
                start_at := some "2020-01-01", end_at := some "2020-01-02" })
        (some { step_id := 2, passed := true }) "2024-06-01" =
      ⟨.SKIPPED, "N/A", none⟩ ∧
    ({ step_id := 2, status := "PASS", skipped := true,
       start_at := some "2020-01-01", end_at := some "2020-01-02" } : Assignment) ∉
      queueBase [{ step_id := 2, status := "PASS", skipped := true,
                   start_at := some "2020-01-01", end_at := some "2020-01-02" }] ∧
    ((∀ b ∈ [({ step_id := 2, status := "PASS", skipped := true,
                start_at := some "2020-01-01", end_at := some "2020-01-02" } : Assignment)],
        b.step_id = 2 → b.skipped = true) →
      2 ∉ nonSkippedStepIds
        [{ step_id := 2, status := "PASS", skipped := true,
           start_at := some "2020-01-01", end_at := some "2020-01-02" }]) :=
  c3_skipped_is_na _ _ _ _ rfl

/-- C4: a non-skipped assignment whose status uppercases to "PASS" or
"FAIL" classifies — in both classifier copies — to exactly that kind and
label, with the passed flag equal to whether the normalized status is
"PASS", regardless of the scheduled dates and of any result record. -/
theorem c4_status_pass_fail (a : Assignment) (rOpt : Option Result)
    (todayKey : String) (hskip : a.skipped = false)
    (h : strToUpper a.status = "PASS" ∨ strToUpper a.status = "FAIL") :
    matrixClassify (some a) rOpt todayKey =
      ⟨if strToUpper a.status = "PASS" then .PASS else .FAIL,
        strToUpper a.status, some (strToUpper a.status == "PASS")⟩ ∧
    uploadMatrixClassify (some a) rOpt todayKey =
      ⟨if strToUpper a.status = "PASS" then .PASS else .FAIL,
        strToUpper a.status, some (strToUpper a.status == "PASS")⟩ := by
  rcases h with h | h <;>
    constructor <;>
    simp [matrixClassify, uploadMatrixClassify, hskip, h]

/-- Witness for C4 at a lower-case "fail" status with dates and a passing
result present. -/
theorem c4_witness :
    matrixClassify
        (some { status := "fail", start_at := some "2099-01-01" })
        (some { passed := true }) "2024-06-01" =
      ⟨if strToUpper "fail" = "PASS" then .PASS else .FAIL,
        strToUpper "fail", some (strToUpper "fail" == "PASS")⟩ ∧
    uploadMatrixClassify
        (some { status := "fail", start_at := some "2099-01-01" })
        (some { passed := true }) "2024-06-01" =
      ⟨if strToUpper "fail" = "PASS" then .PASS else .FAIL,
        strToUpper "fail", some (strToUpper "fail" == "PASS")⟩ :=
  c4_status_pass_fail _ _ _ rfl (Or.inr (by decide))

/-- C6: the first copy of `formatSingaporeDateTime` renders the stored UTC
instant with a zero-hour shift, contradicting its own comment and the
second copy, which shifts by exactly 8 hours: 20:00 UTC on 2024-01-01
renders as "2024-01-01 20:00" in the first copy but as the UTC+8 wall
clock "2024-01-02 04:00" in the second. -/
theorem c6_timezone_offset :
    formatSingaporeDateTimeV1 (some "2024-01-01T20:00:00") = "2024-01-01 20:00" ∧
    formatSingaporeDateTime (some "2024-01-01T20:00:00") = "2024-01-02 04:00" ∧
    formatSingaporeDateTimeV1 (some "2024-01-01T20:00:00") ≠
      formatSingaporeDateTime (some "2024-01-01T20:00:00") := by
  decide

/-- C8: the quick-action handler never creates any result — in particular
never a FAIL — for the designated sub-checklist step; a checkbox toggle
creates exactly one PASS result, whose metrics equal the full checklist
state, precisely when the toggled state has all three checks true, and
creates nothing otherwise; the spec's scenario (ambient and low true,
toggling high) emits one PASS with metrics all-true, while toggling high
with low still false emits nothing. -/
theorem c8_subchecklist_step :
    (∀ u p, handleQuickResult u PRE_VIBRATION_STEP_ID p = none) ∧
    (∀ u a k, allChecked (some (flipCheck k a)) = true →
      (toggleSubCheck u PRE_VIBRATION_STEP_ID a k).emitted =
        some { unit_id := u, step_id := PRE_VIBRATION_STEP_ID,
               metrics := some (flipCheck k a), passed := true }) ∧
    (∀ u a k, allChecked (some (flipCheck k a)) = false →
      (toggleSubCheck u PRE_VIBRATION_STEP_ID a k).emitted = none) ∧
    (toggleSubCheck "U1" PRE_VIBRATION_STEP_ID ⟨true, true, false⟩ .high).emitted =
      some { unit_id := "U1", step_id := PRE_VIBRATION_STEP_ID,
             metrics := some ⟨true, true, true⟩, passed := true } ∧
    (toggleSubCheck "U1" PRE_VIBRATION_STEP_ID ⟨true, false, false⟩ .high).emitted =
      none := by
  refine ⟨fun u p => by simp [handleQuickResult],
    fun u a k h => by simp [toggleSubCheck, h],
    fun u a k h => by simp [toggleSubCheck, h],
    by decide, by decide⟩

/-- Witness for C8's quantified parts at concrete inputs. -/
theorem c8_witness :
    handleQuickResult "U2" PRE_VIBRATION_STEP_ID false = none ∧
    (toggleSubCheck "U2" PRE_VIBRATION_STEP_ID ⟨false, true, true⟩ .ambient).emitted =
      some { unit_id := "U2", step_id := PRE_VIBRATION_STEP_ID,
             metrics := some (flipCheck .ambient ⟨false, true, true⟩), passed := true } ∧
    (toggleSubCheck "U2" PRE_VIBRATION_STEP_ID ⟨true, true, true⟩ .high).emitted = none :=
  ⟨c8_subchecklist_step.1 "U2" false,
    c8_subchecklist_step.2.1 "U2" ⟨false, true, true⟩ .ambient (by decide),
    c8_subchecklist_step.2.2.1 "U2" ⟨true, true, true⟩ .high (by decide)⟩

/-- C9: the root render tree of `main.tsx` mounts StrictMode, the query
client provider, the router and the prompt provider around `App` — but no
`ErrorBoundary` — even though the boundary component itself would derive
the error state and render its generic fallback instead of the children.
An unhandled rendering exception therefore unmounts the whole tree instead
of showing the fallback. -/
theorem c9_no_mounted_boundary :
    ReactComponent.ErrorBoundaryC ∉ mainRenderWrappers ∧
    errorBoundaryRender getDerivedStateFromError "page content" =
      "Something went wrong." ∧
    errorBoundaryRender ⟨false⟩ "page content" = "page content" :=
  ⟨by decide, rfl, rfl⟩

/-- C1 fails as stated: the claimed start-date rule does not hold in the
tester queue view.  For a PENDING assignment whose start date 2024-01-01
lies strictly before today 2024-06-01 (no end date, no result), the matrix
classifier derives OVERDUE but the queue view still shows "PENDING". -/
theorem c1_counterexample :
    queueVisualStatus { status := "PENDING", start_at := some "2024-01-01" }
      "2024-06-01" = "PENDING" ∧
    (matrixClassify (some { status := "PENDING", start_at := some "2024-01-01" })
      none "2024-06-01").statusKind = .OVERDUE ∧
    ("PENDING" : String) ≠ "OVERDUE" := by
  decide

/-- C1 (amended): for a non-skipped assignment whose status does not
normalize to PASS, FAIL or RUNNING and that has no result, the *matrix
view* classifier derives the kind from the start date against today — no
start date gives PENDING, start before today gives OVERDUE, start equal to
today gives RUNNING, start after today gives PENDING; the *tester queue*
view instead derives OVERDUE only from an end date strictly before today
and otherwise keeps the raw PENDING status, never deriving RUNNING from
dates. -/
theorem c1_date_derivation (a : Assignment) (todayKey : String)
    (hskip : a.skipped = false)
    (hp : strToUpper a.status ≠ "PASS") (hf : strToUpper a.status ≠ "FAIL")
    (hr : strToUpper a.status ≠ "RUNNING") :
    (a.start_at = none →
      (matrixClassify (some a) none todayKey).statusKind = .PENDING) ∧
    (∀ s, a.start_at = some s → strTake s 10 ≠ "" →
      (strLt (strTake s 10) todayKey = true →
        (matrixClassify (some a) none todayKey).statusKind = .OVERDUE) ∧
      (strTake s 10 = todayKey →
        (matrixClassify (some a) none todayKey).statusKind = .RUNNING) ∧
      (strLt todayKey (strTake s 10) = true →
        (matrixClassify (some a) none todayKey).statusKind = .PENDING)) ∧
    (a.status = "PENDING" →
      (a.end_at = none → queueVisualStatus a todayKey = "PENDING") ∧
      (∀ e, a.end_at = some e → e ≠ "" →
        (strLt (strTake e 10) todayKey = true →
          queueVisualStatus a todayKey = "OVERDUE") ∧
        (strLt (strTake e 10) todayKey = false →
          queueVisualStatus a todayKey = "PENDING"))) := by
  refine ⟨?_, ?_, ?_⟩
  · intro hnone
    simp [matrixClassify, hskip, hp, hf, hr, hnone]
  · intro s hs hne
    refine ⟨?_, ?_, ?_⟩
    · intro hlt
      simp [matrixClassify, hskip, hp, hf, hr, hs, hne, hlt]
    · intro heq
      rw [heq] at hne
      simp [matrixClassify, hskip, hp, hf, hr, hs, hne, heq, strLt_irrefl]
    · intro hgt
      have h1 : strLt (strTake s 10) todayKey = false := strLt_asymm hgt
      have h2 : strTake s 10 ≠ todayKey := by
        intro hequ
        rw [hequ, strLt_irrefl] at hgt
        exact Bool.false_ne_true hgt
      simp [matrixClassify, hskip, hp, hf, hr, hs, hne, h1, h2]
  · intro hpend
    refine ⟨?_, ?_⟩
    · intro hend
      simp [queueVisualStatus, toDateKey, hpend, hend]
    · intro e he hene
      refine ⟨?_, ?_⟩
      · intro hlt
        simp [queueVisualStatus, toDateKey, hpend, he, hene, hlt]
      · intro hge
        simp [queueVisualStatus, toDateKey, hpend, he, hene, hge]

/-- Witness for C1's amended statement: the matrix view derives OVERDUE
from a past start date, and the queue view derives OVERDUE from a past end
date, at concrete assignments. -/
theorem c1_witness :
    (matrixClassify
      (some { status := "PENDING", start_at := some "2024-01-01" })
      none "2024-06-01").statusKind = .OVERDUE ∧
    queueVisualStatus
      { status := "PENDING", start_at := some "2024-01-01",
        end_at := some "2024-01-02" } "2024-06-01" = "OVERDUE" :=
  ⟨((c1_date_derivation
      { status := "PENDING", start_at := some "2024-01-01" } "2024-06-01"
      rfl (by decide) (by decide) (by decide)).2.1
        "2024-01-01" rfl (by decide)).1 (by decide),
    (((c1_date_derivation
      { status := "PENDING", start_at := some "2024-01-01",
        end_at := some "2024-01-02" } "2024-06-01"
      rfl (by decide) (by decide) (by decide)).2.2 rfl).2
        "2024-01-02" rfl (by decide)).1 (by decide)⟩

/-- C2 fails as stated: a result record does override a date-derived
RUNNING kind.  With status PENDING and start date equal to today, the
matrix classifier alone derives RUNNING, but with a passing result present
the legacy fallback (which re-tests the raw status, not the derived kind)
turns the cell into PASS; moreover the duplicate classifier copy in the
upload page file lets a failing result override even an explicit RUNNING
status. -/
theorem c2_counterexample :
    (matrixClassify (some { status := "PENDING", start_at := some "2024-06-01" })
      none "2024-06-01").statusKind = .RUNNING ∧
    (matrixClassify (some { status := "PENDING", start_at := some "2024-06-01" })
      (some { passed := true }) "2024-06-01").statusKind = .PASS ∧
    CellStatusKind.PASS ≠ .RUNNING ∧
    (uploadMatrixClassify (some { status := "RUNNING" })
      (some { passed := false }) "2024-06-01").statusKind = .FAIL := by
  decide

/-- C2 (amended): in the matrix-view classifier a status normalizing to
RUNNING always yields kind RUNNING, untouched by any result; but the
legacy-result fallback is gated on the raw status rather than on the kind
left after date derivation, so whenever the raw status is not
PASS/FAIL/RUNNING and a result exists the result's passed flag determines
the kind — overriding even a date-derived RUNNING; and in the duplicate
copy in the upload page file an existing result determines the kind for
every status that is not PASS/FAIL, including RUNNING. -/
theorem c2_result_fallback (a : Assignment) (r : Result) (rOpt : Option Result)
    (todayKey : String) (hskip : a.skipped = false) :
    (strToUpper a.status = "RUNNING" →
      (matrixClassify (some a) rOpt todayKey).statusKind = .RUNNING) ∧
    (strToUpper a.status ≠ "PASS" → strToUpper a.status ≠ "FAIL" →
      strToUpper a.status ≠ "RUNNING" →
      (matrixClassify (some a) (some r) todayKey).statusKind =
        (if r.passed then .PASS else .FAIL)) ∧
    (strToUpper a.status ≠ "PASS" → strToUpper a.status ≠ "FAIL" →
      (uploadMatrixClassify (some a) (some r) todayKey).statusKind =
        (if r.passed then .PASS else .FAIL)) := by
  refine ⟨?_, ?_, ?_⟩
  · intro h
    simp [matrixClassify, hskip, h]
  · intro hp hf hr
    cases hrp : r.passed <;>
      simp [matrixClassify, hskip, hp, hf, hr, hrp]
  · intro hp hf
    cases hrp : r.passed <;>
      simp [uploadMatrixClassify, hskip, hp, hf, hrp]

/-- Witness for C2's amended statement at concrete inputs: an explicit
RUNNING status survives a result in the matrix copy; a PENDING status with
start equal to today and a passing result becomes PASS; and the duplicate
copy lets a failing result override RUNNING. -/
theorem c2_witness :
    (matrixClassify (some { status := "running" })
      (some { passed := true }) "2024-06-01").statusKind = .RUNNING ∧
    (matrixClassify (some { status := "PENDING", start_at := some "2024-06-01" })
      (some { passed := true }) "2024-06-01").statusKind =
      (if ({ passed := true } : Result).passed then .PASS else .FAIL) ∧
    (uploadMatrixClassify (some { status := "RUNNING" })
      (some { passed := false }) "2024-06-01").statusKind =
      (if ({ passed := false } : Result).passed then .PASS else .FAIL) :=
  ⟨(c2_result_fallback { status := "running" } { passed := true }
      (some { passed := true }) "2024-06-01" rfl).1 (by decide),
    (c2_result_fallback { status := "PENDING", start_at := some "2024-06-01" }
      { passed := true } none "2024-06-01" rfl).2.1
      (by decide) (by decide) (by decide),
    (c2_result_fallback { status := "RUNNING" } { passed := false }
      none "2024-06-01" rfl).2.2 (by decide) (by decide)⟩

/-- C5 fails as stated: the matrix view's cell date does not filter the
1970-01-01 sentinel.  A result whose finished timestamp is the sentinel is
displayed as the date "1970-01-01" even though the assignment has an end
date to fall back to. -/
theorem c5_counterexample :
    matrixCellDate (some { end_at := some "2024-05-05" })
      (some { finished_at := some "1970-01-01T00:00:00" }) = some "1970-01-01" ∧
    isBlankSentinel (some "1970-01-01T00:00:00") = true ∧
    (some "1970-01-01" : Option String) ≠ some "2024-05-05" := by
  decide

/-- C5 (amended): in the unit-detail page's `pickDisplayDate` the claimed
precedence holds — a present, non-empty, non-sentinel finished timestamp
is formatted (in SGT), a sentinel or missing one falls back to the end
date nullish-coalesced with the start date, and "-" when nothing remains;
the matrix view's cell date instead uses the finished timestamp whenever
present and non-empty — the sentinel included — and applies the schedule
fallback only to non-skipped assignments. -/
theorem c5_display_date (aOpt : Option Assignment) (a : Assignment)
    (r : Result) (f : String) :
    (r.finished_at = some f → f ≠ "" → isBlankSentinel (some f) = false →
      pickDisplayDate aOpt (some r) = formatSingaporeDateTime (some f)) ∧
    (r.finished_at = some f → isBlankSentinel (some f) = true →
      pickDisplayDate aOpt (some r) = schedFallbackDisplay aOpt) ∧
    (r.finished_at = none →
      pickDisplayDate aOpt (some r) = schedFallbackDisplay aOpt) ∧
    (r.finished_at = some f → f ≠ "" →
      matrixCellDate aOpt (some r) = toISODate (some f)) ∧
    (a.skipped = false →
      matrixCellDate (some a) none =
        toISODate (nullishCoalesce a.end_at a.start_at)) ∧
    (a.skipped = true → matrixCellDate (some a) none = none) := by
  refine ⟨?_, ?_, ?_, ?_, ?_, ?_⟩
  · intro hfin hne hsent
    simp [pickDisplayDate, hfin, hne, hsent]
  · intro hfin hsent
    have hne : f ≠ "" := by
      intro hf
      rw [hf] at hsent
      exact Bool.false_ne_true hsent
    simp [pickDisplayDate, hfin, hne, hsent]
  · intro hfin
    simp [pickDisplayDate, hfin]
  · intro hfin hne
    simp [matrixCellDate, hfin, hne, toISODate]
  · intro hskip
    simp [matrixCellDate, hskip]
  · intro hskip
    simp [matrixCellDate, hskip]

/-- Witness for C5's amended statement at concrete inputs covering the
non-sentinel, sentinel and no-result branches. -/
theorem c5_witness :
    (pickDisplayDate (some { end_at := some "2024-05-05" })
      (some { finished_at := some "2024-05-04T02:30:00" }) =
      formatSingaporeDateTime (some "2024-05-04T02:30:00")) ∧
    (pickDisplayDate (some { end_at := some "2024-05-05" })
      (some { finished_at := some "1970-01-01T00:00:00" }) =
      schedFallbackDisplay (some { end_at := some "2024-05-05" })) ∧
    (matrixCellDate (some { end_at := some "2024-05-05" })
      (some { finished_at := some "1970-01-01T00:00:00" }) =
      toISODate (some "1970-01-01T00:00:00")) ∧
    (matrixCellDate
      (some { start_at := some "2024-04-01", end_at := none,
              skipped := false }) none =
      toISODate (nullishCoalesce none (some "2024-04-01"))) :=
  ⟨(c5_display_date (some { end_at := some "2024-05-05" })
      { end_at := some "2024-05-05" }
      { finished_at := some "2024-05-04T02:30:00" } "2024-05-04T02:30:00").1
      rfl (by decide) (by decide),
    (c5_display_date (some { end_at := some "2024-05-05" })
      { end_at := some "2024-05-05" }
      { finished_at := some "1970-01-01T00:00:00" } "1970-01-01T00:00:00").2.1
      rfl (by decide),
    (c5_display_date (some { end_at := some "2024-05-05" })
      { end_at := some "2024-05-05" }
      { finished_at := some "1970-01-01T00:00:00" } "1970-01-01T00:00:00").2.2.2.1
      rfl (by decide),
    (c5_display_date none
      { start_at := some "2024-04-01", end_at := none, skipped := false }
      { } "x").2.2.2.2.1 rfl⟩

/-- C7: under the data-model invariant of at most one assignment per step
(no duplicate step ids among the non-skipped assignments), the displayed
progress equals the claim's formula — the rounding of
100 * passedCount / totalCount, where totalCount is the number of
non-skipped assignments with the catalog fallback and passedCount counts
the passing results on non-skipped steps; totalCount = 0 yields 0; and the
spec's scenario of three non-skipped steps with one passing result
displays 33. -/
theorem c7_progress (assignments : List Assignment) (results : List Result)
    (catalogCount : Nat)
    (hnodup : ((assignments.filter fun a => !a.skipped).map (·.step_id)).Nodup) :
    (displayProgress assignments results catalogCount =
      if spec_totalCount assignments catalogCount = 0 then 0
      else round ((100 * (spec_passedCount assignments results : ℚ)) /
        (spec_totalCount assignments catalogCount : ℚ))) ∧
    (spec_totalCount assignments catalogCount = 0 →
      displayProgress assignments results catalogCount = 0) ∧
    displayProgress [{ step_id := 1 }, { step_id := 2 }, { step_id := 3 }]
      [{ step_id := 1, passed := true }] 3 = 33 := by
  have hdedup : ((assignments.filter fun a => !a.skipped).map (·.step_id)).dedup =
      (assignments.filter fun a => !a.skipped).map (·.step_id) :=
    List.dedup_eq_self.mpr hnodup
  have hts : totalSteps assignments catalogCount =
      spec_totalCount assignments catalogCount := by
    simp [totalSteps, nonSkippedStepIds, spec_totalCount, hdedup]
  have hps : passedSteps results assignments =
      spec_passedCount assignments results := by
    simp [passedSteps, nonSkippedStepIds, spec_passedCount, hdedup]
  have hmain : displayProgress assignments results catalogCount =
      if spec_totalCount assignments catalogCount = 0 then 0
      else round ((100 * (spec_passedCount assignments results : ℚ)) /
        (spec_totalCount assignments catalogCount : ℚ)) := by
    rw [displayProgress, progress, hts, hps]
    by_cases h : spec_totalCount assignments catalogCount = 0
    · simp [h]
    · simp only [h, if_neg, not_false_eq_true]
      congr 1
      have hq : (spec_totalCount assignments catalogCount : ℚ) ≠ 0 := by
        exact_mod_cast h
      field_simp
      ring
  refine ⟨hmain, ?_, ?_⟩
  · intro h
    rw [hmain, if_pos h]
  · have h3 : totalSteps
        [({ step_id := 1 } : Assignment), { step_id := 2 }, { step_id := 3 }] 3 = 3 := by
      decide
    have h1 : passedSteps [({ step_id := 1, passed := true } : Result)]
        [({ step_id := 1 } : Assignment), { step_id := 2 }, { step_id := 3 }] = 1 := by
      decide
    rw [displayProgress, progress, h3, h1]
    norm_num [round_eq]

/-- Witness for C7 at the concrete three-step scenario. -/
theorem c7_witness :
    (displayProgress [{ step_id := 1 }, { step_id := 2 }, { step_id := 3 }]
      [{ step_id := 1, passed := true }] 3 =
      if spec_totalCount [{ step_id := 1 }, { step_id := 2 }, { step_id := 3 }] 3 = 0
      then 0
      else round ((100 * (spec_passedCount
          [{ step_id := 1 }, { step_id := 2 }, { step_id := 3 }]
          [{ step_id := 1, passed := true }] : ℚ)) /
        (spec_totalCount [{ step_id := 1 }, { step_id := 2 }, { step_id := 3 }] 3 : ℚ))) ∧
    displayProgress [{ step_id := 1 }, { step_id := 2 }, { step_id := 3 }]
      [{ step_id := 1, passed := true }] 3 = 33 :=
  ⟨(c7_progress [{ step_id := 1 }, { step_id := 2 }, { step_id := 3 }]
      [{ step_id := 1, passed := true }] 3 (by decide)).1,
    (c7_progress [{ step_id := 1 }, { step_id := 2 }, { step_id := 3 }]
      [{ step_id := 1, passed := true }] 3 (by decide)).2.2⟩

/-- C10: every `handleFieldChange` operation preserves the edit-buffer
invariant that a row with both dates non-empty has its end date at or
after its start date — raising the start date above the end date clamps
the end date up to it, setting the end date below the start date resets it
to the start date — and every field change marks the row dirty. -/
theorem c10_field_change_invariant (current : RowState) (field : RowField)
    (value : String) (hinv : rowInv current) :
    rowInv (handleFieldChange current field value) ∧
    (handleFieldChange current field value).dirty = true := by
  cases field with
  | tester_id =>
    refine ⟨?_, rfl⟩
    intro h1 h2
    simp only [handleFieldChange] at h1 h2 ⊢
    exact hinv h1 h2
  | status =>
    refine ⟨?_, rfl⟩
    intro h1 h2
    simp only [handleFieldChange] at h1 h2 ⊢
    exact hinv h1 h2
  | start_date =>
    refine ⟨?_, rfl⟩
    simp only [handleFieldChange, rowInv]
    by_cases hc : (current.end_date != "" && strLt current.end_date value) = true
    · simp only [if_pos hc]
      intro h1 h2
      exact strLt_irrefl value
    · simp only [if_neg hc]
      intro h1 h2
      simp only [Bool.and_eq_true, bne_iff_ne, ne_eq, not_and,
        Bool.not_eq_true] at hc
      exact hc h2
  | end_date =>
    refine ⟨?_, rfl⟩
    simp only [handleFieldChange, rowInv]
    by_cases hc : (current.start_date != "" && strLt value current.start_date) = true
    · simp only [if_pos hc]
      intro h1 h2
      exact strLt_irrefl current.start_date
    · simp only [if_neg hc]
      intro h1 h2
      simp only [Bool.and_eq_true, bne_iff_ne, ne_eq, not_and,
        Bool.not_eq_true] at hc
      exact hc h1

/-- Witness for C10: a change that sets the end date below the start date
on a concrete clean row yields a clamped, dirty row satisfying the
invariant. -/
theorem c10_witness :
    rowInv (handleFieldChange
      { tester_id := "t1", start_date := "2024-06-10", end_date := "2024-06-12",
        status := "PENDING", dirty := false } .end_date "2024-06-01") ∧
    (handleFieldChange
      { tester_id := "t1", start_date := "2024-06-10", end_date := "2024-06-12",
        status := "PENDING", dirty := false } .end_date "2024-06-01").dirty = true :=
  c10_field_change_invariant
    { tester_id := "t1", start_date := "2024-06-10", end_date := "2024-06-12",
      status := "PENDING", dirty := false } .end_date "2024-06-01"
    (by intro h1 h2; decide)
